import Mathlib

/-!
# pgbackweb: the PostgreSQL integration client

A shallow embedding of `internal/integration/postgres/postgres.go`.

* Go `error` values are modelled by `GoError` (a message, optionally wrapping a cause,
  as `fmt.Errorf` with `%w` does); a Go `error` result is `Option GoError`, `none` being `nil`.
* Subprocesses are not run: the result of every `exec.Cmd` call (`Start`, `Wait`, `Run`,
  `CombinedOutput`, `StdoutPipe`) is an explicit input of the function that performs the call,
  and the calls performed are recorded in order.
* `io.Pipe` is modelled by the close state of its write end; for `DumpZip`, whose consumer
  may close the read end it is handed, also by the close error of the read end.
-/

namespace Postgres

/-! ## Go errors -/

/-- A Go `error` value: `leaf msg` is `fmt.Errorf` without `%w` (or any foreign error),
`wrap msg cause` is the result of `fmt.Errorf` with a `%w` verb applied to `cause`. -/
inductive GoError where
  | leaf (msg : String)
  | wrap (msg : String) (cause : GoError)
deriving DecidableEq, Repr

/-- The `Error()` method. -/
def GoError.Error : GoError → String
  | .leaf msg => msg
  | .wrap msg _ => msg

/-- The `errors.Unwrap` function. -/
def GoError.Unwrap : GoError → Option GoError
  | .leaf _ => none
  | .wrap _ cause => some cause

/-- The call `fmt.Errorf(format ++ "%w", err)` for a format whose only verb is the final `%w`. -/
def errorfW (fmt : String) (err : GoError) : GoError :=
  .wrap (fmt ++ err.Error) err

/-- The string `s` contains `sub` as a contiguous run of characters. -/
def Contains (s sub : String) : Prop := sub.data <:+: s.data

instance (s sub : String) : Decidable (Contains s sub) := by
  unfold Contains; infer_instance

/-! ## Version registry -/

/-- The Go struct `version`. -/
structure version where
  Version : String
  PGDump : String
  PSQL : String
deriving DecidableEq, Repr

/-- The Go type `PGVersion`, an `enum.Member[version]`: a struct with the single field `Value`. -/
structure PGVersion where
  Value : version
deriving DecidableEq, Repr

/-- The zero value `PGVersion{}`. -/
def PGVersion.zero : PGVersion := ⟨⟨"", "", ""⟩⟩

def PG13 : PGVersion := ⟨{
  Version := "13",
  PGDump := "/usr/lib/postgresql/13/bin/pg_dump",
  PSQL := "/usr/lib/postgresql/13/bin/psql" }⟩

def PG14 : PGVersion := ⟨{
  Version := "14",
  PGDump := "/usr/lib/postgresql/14/bin/pg_dump",
  PSQL := "/usr/lib/postgresql/14/bin/psql" }⟩

def PG15 : PGVersion := ⟨{
  Version := "15",
  PGDump := "/usr/lib/postgresql/15/bin/pg_dump",
  PSQL := "/usr/lib/postgresql/15/bin/psql" }⟩

def PG16 : PGVersion := ⟨{
  Version := "16",
  PGDump := "/usr/lib/postgresql/16/bin/pg_dump",
  PSQL := "/usr/lib/postgresql/16/bin/psql" }⟩

def PG17 : PGVersion := ⟨{
  Version := "17",
  PGDump := "/usr/lib/postgresql/17/bin/pg_dump",
  PSQL := "/usr/lib/postgresql/17/bin/psql" }⟩

def PGVersions : List PGVersion := [PG13, PG14, PG15, PG16, PG17]

/-- The method `Client.ParseVersion`: the Go pair `(PGVersion, error)` is returned as is. -/
def ParseVersion (version : String) : PGVersion × Option GoError :=
  if version = "13" then (PG13, none)
  else if version = "14" then (PG14, none)
  else if version = "15" then (PG15, none)
  else if version = "16" then (PG16, none)
  else if version = "17" then (PG17, none)
  else (PGVersion.zero, some (.leaf ("pg version not allowed: " ++ version)))

/-! ## Subprocess commands -/

/-- The part of `exec.Cmd` fixed by `exec.Command(name, arg...)`. -/
structure Cmd where
  Path : String
  Args : List String
deriving DecidableEq, Repr

/-- The function `exec.Command`. -/
def Command (name : String) (arg : List String) : Cmd := ⟨name, arg⟩

/-! ## Connectivity test -/

/-- The method `Client.Test`. `CombinedOutput` gives, for the command it is called on, the
combined stdout and stderr text and the error of `cmd.CombinedOutput()`. -/
def Test (version : PGVersion) (connString : String)
    (CombinedOutput : Cmd → String × Option GoError) : Option GoError :=
  let cmd := Command version.Value.PSQL [connString, "-c", "SELECT 1;"]
  let (output, err) := CombinedOutput cmd
  match err with
  | some _ =>
    some (.leaf ("error running psql test v" ++ version.Value.Version ++ ": " ++ output))
  | none => none

/-! ## Pipes and goroutine events -/

/-- The close state of the write end of an `io.Pipe`, as seen by the reader once all data is
consumed: still open, closed with end-of-data (`io.EOF`), or closed with an error. -/
inductive PipeState where
  | isOpen
  | closedEOF
  | closedErr (err : GoError)
deriving DecidableEq, Repr

/-- The method `PipeWriter.CloseWithError`: a `nil` error closes with end-of-data, and the
stored close error is never overwritten once set (the first close wins). -/
def PipeState.CloseWithError (p : PipeState) (err : Option GoError) : PipeState :=
  match p with
  | .isOpen =>
    match err with
    | none => .closedEOF
    | some e => .closedErr e
  | .closedEOF => .closedEOF
  | .closedErr e => .closedErr e

/-- The method `PipeWriter.Close`, which is `CloseWithError(nil)`. -/
def PipeState.Close (p : PipeState) : PipeState := p.CloseWithError none

/-- What a background goroutine of `Dump` or `DumpZip` does, in order. -/
inductive Event where
  | run (cmd : Cmd)
  | zipCreate (name : String)
  | ioCopy
  | closeWithError (err : GoError)
  | zipClose
  | close
deriving DecidableEq, Repr

/-- The effect of one goroutine event on the pipe the goroutine writes to. Running the
subprocess, creating the zip entry, copying and closing the zip writer only write to the pipe. -/
def PipeState.step (p : PipeState) : Event → PipeState
  | .closeWithError err => p.CloseWithError (some err)
  | .close => p.Close
  | _ => p

/-- The pipe state after a sequence of events, starting from `p`. -/
def PipeState.after (p : PipeState) (evs : List Event) : PipeState :=
  evs.foldl PipeState.step p

/-! ## Dump -/

/-- The Go struct `DumpParams`. -/
structure DumpParams where
  DataOnly : Bool := false
  SchemaOnly : Bool := false
  Clean : Bool := false
  IfExists : Bool := false
  Create : Bool := false
  NoComments : Bool := false
deriving DecidableEq, Repr

/-- The argument list `args` that `Client.Dump` builds; `params` is the variadic parameter. -/
def Dump.args (connString : String) (params : List DumpParams) : List String :=
  let pickedParams : DumpParams :=
    match params with
    | [] => {}
    | p :: _ => p
  let args := [connString]
  let args := if pickedParams.DataOnly then args ++ ["--data-only"] else args
  let args := if pickedParams.SchemaOnly then args ++ ["--schema-only"] else args
  let args := if pickedParams.Clean then args ++ ["--clean"] else args
  let args := if pickedParams.IfExists then args ++ ["--if-exists"] else args
  let args := if pickedParams.Create then args ++ ["--create"] else args
  let args := if pickedParams.NoComments then args ++ ["--no-comments"] else args
  args

/-- The outcome of `cmd.Run()` on the pg_dump command: the error returned and the text the
subprocess wrote to `errorBuffer`. -/
structure RunResult where
  err : Option GoError
  stderr : String
deriving DecidableEq, Repr

/-- The result of `Client.Dump`: the command it runs, the events of its goroutine, and the
final close state of the pipe whose read end is returned. -/
structure DumpResult where
  cmd : Cmd
  events : List Event
  reader : PipeState
deriving DecidableEq, Repr

/-- The method `Client.Dump`. `Run` gives the outcome of `cmd.Run()` for the command it is
called on. The deferred `writer.Close()` is the last event of the goroutine. -/
def Dump (version : PGVersion) (connString : String) (params : List DumpParams)
    (Run : Cmd → RunResult) : DumpResult :=
  let args := Dump.args connString params
  let cmd := Command version.Value.PGDump args
  let r := Run cmd
  let body : List Event :=
    match r.err with
    | some _ =>
      [.run cmd, .closeWithError
        (.leaf ("error running pg_dump v" ++ version.Value.Version ++ ": " ++ r.stderr))]
    | none => [.run cmd]
  let events := body ++ [.close]
  ⟨cmd, events, PipeState.isOpen.after events⟩

/-! ## DumpZip -/

/-- The error `io.Copy(dst, src)` returns when `src` is a pipe that ends in state `src`:
`writeErr` is the error of the first failing write to `dst`, if a write fails before the
source ends; otherwise the copy ends with the source, with its close error unless that is
end-of-data. The source of `DumpZip` is the stream of `Dump`, whose goroutine always closes
it, so the copy is never left waiting on a source that stays open. -/
def ioCopy (writeErr : Option GoError) (src : PipeState) : Option GoError :=
  match writeErr with
  | some e => some e
  | none =>
    match src with
    | .closedErr e => some e
    | _ => none

/-- The sentinel error `io.ErrClosedPipe`. -/
def ErrClosedPipe : GoError := .leaf "io: read/write on closed pipe"

/-- The method `pipe.readCloseError`, what the reads of the consumer end with: `rerr` is the
error stored by a close of the read end (`none` if the read end was not closed) and `w` the
close state of the write end. After a close of the read end the reads return
`io.ErrClosedPipe`, whatever the write end was closed with. -/
def readCloseError (rerr : Option GoError) (w : PipeState) : PipeState :=
  match rerr with
  | some _ => .closedErr ErrClosedPipe
  | none => w

/-- The result of `Client.DumpZip`: the dump it reads from, the events of its own goroutine,
the final close state of the write end of its pipe, and what the reads of the consumer of the
returned read end finally return. -/
structure DumpZipResult where
  dump : DumpResult
  events : List Event
  writer : PipeState
  reader : PipeState
deriving DecidableEq, Repr

/-- The method `Client.DumpZip`. `createErr` is the error of `zipWriter.Create("dump.sql")`.
`readClose` is the error stored by the consumer closing the returned read end while the
goroutine runs (`io.ErrClosedPipe` for a plain `Close`), `none` if it does not close it; a
write to the pipe fails only after such a close, and then with that error
(`pipe.writeCloseError`). `copyWriteFails` tells whether a write of `io.Copy` reaches the
pipe after that close. The two deferred calls run last, in reverse order of their `defer`
statements. -/
def DumpZip (version : PGVersion) (connString : String) (params : List DumpParams)
    (Run : Cmd → RunResult) (createErr readClose : Option GoError) (copyWriteFails : Bool) :
    DumpZipResult :=
  let dumpReader := Dump version connString params Run
  let writeErr : Option GoError := if copyWriteFails then readClose else none
  let body : List Event :=
    match createErr with
    | some err =>
      [.zipCreate "dump.sql", .closeWithError (errorfW "error creating zip file: " err)]
    | none =>
      match ioCopy writeErr dumpReader.reader with
      | some err =>
        [.zipCreate "dump.sql", .ioCopy,
          .closeWithError (errorfW "error writing to zip file: " err)]
      | none => [.zipCreate "dump.sql", .ioCopy]
  let events := body ++ [.zipClose, .close]
  let writer := PipeState.isOpen.after events
  ⟨dumpReader, events, writer, readCloseError readClose writer⟩

/-! ## RestoreZip -/

/-- The three subprocesses of the restore pipeline. -/
inductive Stage where
  | download
  | unzip
  | psql
deriving DecidableEq, Repr

/-- A call of `Start` or `Wait` on the command of a stage, with the error it returned. -/
inductive Action where
  | start (s : Stage) (cmd : Cmd) (err : Option GoError)
  | wait (s : Stage) (err : Option GoError)
deriving DecidableEq, Repr

/-- The results of the calls `RestoreZip` makes on its commands: creating the two stdout
pipes, and `Start` and `Wait` of each command. A result is used only if the call is made. -/
structure Outcomes where
  dlPipe : Option GoError := none
  uzPipe : Option GoError := none
  dlStart : Option GoError := none
  uzStart : Option GoError := none
  psqlStart : Option GoError := none
  psqlWait : Option GoError := none
  uzWait : Option GoError := none
  dlWait : Option GoError := none
deriving DecidableEq, Repr

/-- The method `Cmd.Run`: `Start`, and if that succeeds, `Wait`. -/
def Cmd.Run (s : Stage) (cmd : Cmd) (startErr waitErr : Option GoError) :
    List Action × Option GoError :=
  match startErr with
  | some err => ([.start s cmd (some err)], some err)
  | none => ([.start s cmd none, .wait s waitErr], waitErr)

/-- The method `Client.RestoreZip`: the calls of `Start` and `Wait` it performs, in order,
and the error it returns. -/
def RestoreZip (version : PGVersion) (connString : String) (isLocal : Bool)
    (zipURLOrPath : String) (o : Outcomes) : List Action × Option GoError :=
  let downloadCmd :=
    if isLocal then Command "cat" [zipURLOrPath]
    else Command "wget" ["--no-verbose", "-O", "-", zipURLOrPath]
  let unzipCmd := Command "unzip" ["-p", "-", "dump.sql"]
  let psqlCmd := Command version.Value.PSQL [connString]
  match o.dlPipe with
  | some err => ([], some (errorfW "restore: cannot create download pipe: " err))
  | none =>
  match o.uzPipe with
  | some err => ([], some (errorfW "restore: cannot create unzip pipe: " err))
  | none =>
  let t1 : List Action := [.start .download downloadCmd o.dlStart]
  match o.dlStart with
  | some err => (t1, some (errorfW "restore: download start failed: " err))
  | none =>
  let t2 := t1 ++ [.start .unzip unzipCmd o.uzStart]
  match o.uzStart with
  | some err => (t2, some (errorfW "restore: unzip start failed: " err))
  | none =>
  let (tr, runErr) := Cmd.Run .psql psqlCmd o.psqlStart o.psqlWait
  let t3 := t2 ++ tr
  match runErr with
  | some err => (t3, some (errorfW "restore: psql failed: " err))
  | none =>
  let t4 := t3 ++ [.wait .unzip o.uzWait]
  match o.uzWait with
  | some err => (t4, some (errorfW "restore: unzip wait failed: " err))
  | none =>
  let t5 := t4 ++ [.wait .download o.dlWait]
  match o.dlWait with
  | some err => (t5, some (errorfW "restore: download wait failed: " err))
  | none => (t5, none)

/-- Whether `Start` was called on the command of stage `s` and succeeded. -/
def started (s : Stage) (tr : List Action) : Bool :=
  tr.any fun a =>
    match a with
    | .start s1 _ none => decide (s1 = s)
    | _ => false

/-- How many times `Wait` was called on the command of stage `s`. -/
def waitCount (s : Stage) (tr : List Action) : Nat :=
  tr.countP fun a =>
    match a with
    | .wait s1 _ => decide (s1 = s)
    | _ => false

end Postgres

namespace Postgres

theorem contains_append_right (p s : String) : Contains (p ++ s) s := by
  unfold Contains
  rw [String.data_append]
  exact (List.suffix_append _ _).isInfix

/-- The labels of the members of `PGVersions`. -/
theorem labels_eq : PGVersions.map (fun v => v.Value.Version) = ["13", "14", "15", "16", "17"] := by
  decide

/-- `ParseVersion` succeeds exactly on the five labels. -/
theorem parse_ok_iff (label : String) :
    (ParseVersion label).2 = none ↔ label ∈ ["13", "14", "15", "16", "17"] := by
  unfold ParseVersion
  split_ifs <;> simp_all

/-- C1: `ParseVersion label` succeeds if and only if `label` is one of "13", "14", "15", "16",
"17", which are exactly the `Version` fields of the members of `PGVersions`; on success it
returns the member of `PGVersions` whose `Version` equals `label`; for every other label it
returns an error whose message contains the rejected label. -/
theorem ParseVersion_accepts_exactly_supported (label : String) :
    ((ParseVersion label).2 = none ↔ label ∈ ["13", "14", "15", "16", "17"]) ∧
    (label ∈ ["13", "14", "15", "16", "17"] ↔
      label ∈ PGVersions.map (fun v => v.Value.Version)) ∧
    ((ParseVersion label).2 = none →
      (ParseVersion label).1 ∈ PGVersions ∧ (ParseVersion label).1.Value.Version = label) ∧
    (label ∉ ["13", "14", "15", "16", "17"] →
      ∃ e, (ParseVersion label).2 = some e ∧
        e.Error = "pg version not allowed: " ++ label ∧ Contains e.Error label) := by
  refine ⟨parse_ok_iff label, by rw [labels_eq], ?_, ?_⟩
  · intro h
    have hm := (parse_ok_iff label).1 h
    simp only [List.mem_cons, List.mem_singleton, List.not_mem_nil, or_false] at hm
    rcases hm with rfl | rfl | rfl | rfl | rfl <;> decide
  · intro h
    simp only [List.mem_cons, List.mem_singleton, List.not_mem_nil, or_false, not_or] at h
    obtain ⟨h13, h14, h15, h16, h17⟩ := h
    refine ⟨.leaf ("pg version not allowed: " ++ label), ?_, rfl, ?_⟩
    · simp [ParseVersion, h13, h14, h15, h16, h17]
    · exact contains_append_right _ _

/-- Witness for C1 at the rejected label "015" and, through the first part, at "15". -/
theorem ParseVersion_accepts_exactly_supported_witness :
    (ParseVersion "15").2 = none ∧
    (∃ e, (ParseVersion "015").2 = some e ∧
      e.Error = "pg version not allowed: " ++ "015" ∧ Contains e.Error "015") :=
  ⟨by decide, (ParseVersion_accepts_exactly_supported "015").2.2.2 (by decide)⟩

/-- C2: for every label accepted by `ParseVersion`, the returned paths are non-empty and are
"/usr/lib/postgresql/<label>/bin/pg_dump" and "/usr/lib/postgresql/<label>/bin/psql"; the
pg_dump path differs from the psql path, and two different accepted labels never resolve to
the same pg_dump path or the same psql path. -/
theorem ParseVersion_paths_version_specific (label : String)
    (h : (ParseVersion label).2 = none) :
    (ParseVersion label).1.Value.PGDump = "/usr/lib/postgresql/" ++ label ++ "/bin/pg_dump" ∧
    (ParseVersion label).1.Value.PSQL = "/usr/lib/postgresql/" ++ label ++ "/bin/psql" ∧
    (ParseVersion label).1.Value.PGDump ≠ "" ∧
    (ParseVersion label).1.Value.PSQL ≠ "" ∧
    (ParseVersion label).1.Value.PGDump ≠ (ParseVersion label).1.Value.PSQL ∧
    ∀ other : String, (ParseVersion other).2 = none → other ≠ label →
      (ParseVersion other).1.Value.PGDump ≠ (ParseVersion label).1.Value.PGDump ∧
      (ParseVersion other).1.Value.PSQL ≠ (ParseVersion label).1.Value.PSQL := by
  have hm := (parse_ok_iff label).1 h
  simp only [List.mem_cons, List.mem_singleton, List.not_mem_nil, or_false] at hm
  refine ⟨?_, ?_, ?_, ?_, ?_, ?_⟩
  · rcases hm with rfl | rfl | rfl | rfl | rfl <;> decide
  · rcases hm with rfl | rfl | rfl | rfl | rfl <;> decide
  · rcases hm with rfl | rfl | rfl | rfl | rfl <;> decide
  · rcases hm with rfl | rfl | rfl | rfl | rfl <;> decide
  · rcases hm with rfl | rfl | rfl | rfl | rfl <;> decide
  · intro other ho hne
    have hmo := (parse_ok_iff other).1 ho
    simp only [List.mem_cons, List.mem_singleton, List.not_mem_nil, or_false] at hmo
    rcases hm with rfl | rfl | rfl | rfl | rfl <;>
      rcases hmo with rfl | rfl | rfl | rfl | rfl <;>
      first
        | exact absurd rfl hne
        | decide

/-- Witness for C2 at the label "16". -/
theorem ParseVersion_paths_version_specific_witness :
    (ParseVersion "16").2 = none ∧
    (ParseVersion "16").1.Value.PGDump = "/usr/lib/postgresql/" ++ "16" ++ "/bin/pg_dump" ∧
    (ParseVersion "16").1.Value.PSQL = "/usr/lib/postgresql/" ++ "16" ++ "/bin/psql" :=
  ⟨by decide,
    (ParseVersion_paths_version_specific "16" (by decide)).1,
    (ParseVersion_paths_version_specific "16" (by decide)).2.1⟩

/-- C3: the argument list `Dump` builds is the connection string, unmodified, as the first
argument, followed by exactly the flags of the true fields, each once, and nothing else, under
the mapping DataOnly -> --data-only, SchemaOnly -> --schema-only, Clean -> --clean,
IfExists -> --if-exists, Create -> --create, NoComments -> --no-comments; a false field
contributes no argument; with no `DumpParams` the argument list is the connection string
alone; and this list is the argument list of the pg_dump command that is run. -/
theorem Dump_args_exactly_true_flags (version : PGVersion) (connString : String)
    (p : DumpParams) (rest : List DumpParams) (Run : Cmd → RunResult) :
    (Dump.args connString (p :: rest)).head? = some connString ∧
    (Dump.args connString (p :: rest)).tail.count "--data-only" = (if p.DataOnly then 1 else 0) ∧
    (Dump.args connString (p :: rest)).tail.count "--schema-only" =
      (if p.SchemaOnly then 1 else 0) ∧
    (Dump.args connString (p :: rest)).tail.count "--clean" = (if p.Clean then 1 else 0) ∧
    (Dump.args connString (p :: rest)).tail.count "--if-exists" = (if p.IfExists then 1 else 0) ∧
    (Dump.args connString (p :: rest)).tail.count "--create" = (if p.Create then 1 else 0) ∧
    (Dump.args connString (p :: rest)).tail.count "--no-comments" =
      (if p.NoComments then 1 else 0) ∧
    (∀ a ∈ (Dump.args connString (p :: rest)).tail,
      a ∈ ["--data-only", "--schema-only", "--clean", "--if-exists", "--create",
        "--no-comments"]) ∧
    Dump.args connString [] = [connString] ∧
    (Dump version connString (p :: rest) Run).cmd =
      ⟨version.Value.PGDump, Dump.args connString (p :: rest)⟩ ∧
    (Dump version connString [] Run).cmd = ⟨version.Value.PGDump, [connString]⟩ := by
  obtain ⟨d, s, c, i, r, n⟩ := p
  refine ⟨?_, ?_, ?_, ?_, ?_, ?_, ?_, ?_, rfl, rfl, rfl⟩ <;>
    cases d <;> cases s <;> cases c <;> cases i <;> cases r <;> cases n <;>
    simp [Dump.args]

/-- C10, as stated, fails: with the connection string "--clean", `IfExists` true and `Clean`
false, the argument list does contain "--clean". -/
theorem Dump_args_contains_clean_from_connString :
    ¬ (∀ (connString : String) (p : DumpParams), p.IfExists = true → p.Clean = false →
      "--if-exists" ∈ Dump.args connString [p] ∧ "--clean" ∉ Dump.args connString [p]) := by
  intro h
  exact (h "--clean" { IfExists := true } rfl rfl).2 (by decide)

/-- C10, amended: `Dump` never rejects or rewrites an option combination, it always runs
pg_dump with the argument list built from the options. Among the arguments that follow the
connection string, "--if-exists" is present exactly when `IfExists` is true and "--clean"
exactly when `Clean` is true; in the whole argument list each of the two is present exactly
when its field is true or the connection string is itself that text. -/
theorem Dump_passes_clean_and_if_exists_through (version : PGVersion) (connString : String)
    (p : DumpParams) (rest : List DumpParams) (Run : Cmd → RunResult) :
    (Dump version connString (p :: rest) Run).cmd.Args = Dump.args connString (p :: rest) ∧
    ("--if-exists" ∈ (Dump.args connString (p :: rest)).tail ↔ p.IfExists = true) ∧
    ("--clean" ∈ (Dump.args connString (p :: rest)).tail ↔ p.Clean = true) ∧
    ("--if-exists" ∈ Dump.args connString (p :: rest) ↔
      (p.IfExists = true ∨ connString = "--if-exists")) ∧
    ("--clean" ∈ Dump.args connString (p :: rest) ↔
      (p.Clean = true ∨ connString = "--clean")) := by
  obtain ⟨d, s, c, i, r, n⟩ := p
  refine ⟨rfl, ?_, ?_, ?_, ?_⟩ <;>
    cases d <;> cases s <;> cases c <;> cases i <;> cases r <;> cases n <;>
    simp [Dump.args, eq_comm]

/-- `RestoreZip` returns `nil` exactly when every call it can make succeeds. -/
theorem restore_nil_iff (version : PGVersion) (connString : String) (isLocal : Bool)
    (zipURLOrPath : String) (o : Outcomes) :
    (RestoreZip version connString isLocal zipURLOrPath o).2 = none ↔
      (o.dlPipe = none ∧ o.uzPipe = none ∧ o.dlStart = none ∧ o.uzStart = none ∧
        o.psqlStart = none ∧ o.psqlWait = none ∧ o.uzWait = none ∧ o.dlWait = none) := by
  obtain ⟨a, b, c, d, e, f, g, h⟩ := o
  cases a <;> cases b <;> cases c <;> cases d <;> cases e <;> cases f <;> cases g <;>
    cases h <;> simp [RestoreZip, Cmd.Run]

/-- C4: `RestoreZip` returns `nil` only if all three stages started and all three terminated
successfully (and then each was started and waited on); in particular, when psql starts and
exits zero but the unzip stage or the download stage failed, `RestoreZip` returns a non-nil
error. -/
theorem RestoreZip_nil_only_if_all_stages_succeed (version : PGVersion) (connString : String)
    (isLocal : Bool) (zipURLOrPath : String) (o : Outcomes) :
    ((RestoreZip version connString isLocal zipURLOrPath o).2 = none →
      o.dlStart = none ∧ o.uzStart = none ∧ o.psqlStart = none ∧
      o.dlWait = none ∧ o.uzWait = none ∧ o.psqlWait = none ∧
      ∀ s : Stage,
        started s (RestoreZip version connString isLocal zipURLOrPath o).1 = true ∧
        waitCount s (RestoreZip version connString isLocal zipURLOrPath o).1 = 1) ∧
    (o.psqlStart = none → o.psqlWait = none →
      (o.dlStart ≠ none ∨ o.dlWait ≠ none ∨ o.uzStart ≠ none ∨ o.uzWait ≠ none) →
      (RestoreZip version connString isLocal zipURLOrPath o).2 ≠ none) := by
  constructor
  · intro h
    obtain ⟨h1, h2, h3, h4, h5, h6, h7, h8⟩ := (restore_nil_iff _ _ _ _ _).1 h
    refine ⟨h3, h4, h5, h8, h7, h6, ?_⟩
    intro s
    cases s <;> simp [RestoreZip, Cmd.Run, started, waitCount, h1, h2, h3, h4, h5, h6, h7, h8]
  · intro _ _ hfail h
    obtain ⟨_, _, h3, h4, _, _, h7, h8⟩ := (restore_nil_iff _ _ _ _ _).1 h
    rcases hfail with hf | hf | hf | hf
    · exact hf h3
    · exact hf h8
    · exact hf h4
    · exact hf h7

/-- Witness for C4: psql exits zero, the download (a 404) exits non-zero. -/
theorem RestoreZip_nil_only_if_all_stages_succeed_witness :
    (RestoreZip PG15 "postgres://db" false "https://host/missing.zip"
      { dlWait := some (.leaf "exit status 8") }).2 ≠ none :=
  (RestoreZip_nil_only_if_all_stages_succeed PG15 "postgres://db" false
    "https://host/missing.zip" { dlWait := some (.leaf "exit status 8") }).2
    rfl rfl (Or.inr (Or.inl (by simp)))

/-- The messages of the errors `RestoreZip` builds for the steps before the download wait
all differ from the message of the download-wait error, whatever the wrapped errors are. -/
theorem msg_ne_download_wait (x y : String) :
    "restore: unzip start failed: " ++ x ≠ "restore: download wait failed: " ++ y ∧
    "restore: psql failed: " ++ x ≠ "restore: download wait failed: " ++ y ∧
    "restore: unzip wait failed: " ++ x ≠ "restore: download wait failed: " ++ y := by
  refine ⟨?_, ?_, ?_⟩ <;>
  · intro h
    have h2 := congrArg String.data h
    simp only [String.data_append] at h2
    have h3 := congrArg (fun l => l.take 10) h2
    simp [List.take_append_of_le_length] at h3

/-- C5, as stated, fails: when the download exits non-zero and unzip, having received no
archive, exits non-zero too, while psql exits zero, `RestoreZip` returns the unzip-wait error,
which wraps the failure of unzip and not that of the download. -/
theorem RestoreZip_reports_unzip_error_when_download_fails :
    (RestoreZip PG15 "postgres://db" false "https://host/missing.zip"
      { dlWait := some (.leaf "exit status 8"), uzWait := some (.leaf "exit status 9") }).2 =
      some (.wrap "restore: unzip wait failed: exit status 9" (.leaf "exit status 9")) ∧
    ¬ (∀ (version : PGVersion) (connString : String) (isLocal : Bool) (zipURLOrPath : String)
        (o : Outcomes) (e : GoError), o.dlPipe = none → o.uzPipe = none → o.dlStart = none →
        o.dlWait = some e →
        ((RestoreZip version connString isLocal zipURLOrPath o).2.bind GoError.Unwrap) =
          some e) := by
  constructor
  · decide
  · intro h
    have h2 := h PG15 "postgres://db" false "https://host/missing.zip"
      { dlWait := some (.leaf "exit status 8"), uzWait := some (.leaf "exit status 9") }
      (.leaf "exit status 8") rfl rfl rfl rfl
    revert h2
    decide

/-- C5, amended: with both pipes created, if the download command fails to start,
`RestoreZip` returns the download-start error wrapping that failure. If the download command
starts, the error of the first failing check in the order unzip start, psql run (its start,
then its wait), unzip wait is returned, wrapping the failure of that check, whatever the
download does. If the download command starts and its wait fails, `RestoreZip` returns a
non-nil error, and that error is the download-wait error wrapping the download failure
exactly when unzip started, psql ran and unzip terminated without error. -/
theorem RestoreZip_acquisition_error (version : PGVersion) (connString : String)
    (isLocal : Bool) (zipURLOrPath : String) (o : Outcomes) (e : GoError)
    (hdl : o.dlPipe = none) (huz : o.uzPipe = none) :
    (o.dlStart = some e →
      (RestoreZip version connString isLocal zipURLOrPath o).2 =
        some (.wrap ("restore: download start failed: " ++ e.Error) e)) ∧
    (o.dlStart = none → o.uzStart = some e →
      (RestoreZip version connString isLocal zipURLOrPath o).2 =
        some (.wrap ("restore: unzip start failed: " ++ e.Error) e)) ∧
    (o.dlStart = none → o.uzStart = none → o.psqlStart = some e →
      (RestoreZip version connString isLocal zipURLOrPath o).2 =
        some (.wrap ("restore: psql failed: " ++ e.Error) e)) ∧
    (o.dlStart = none → o.uzStart = none → o.psqlStart = none → o.psqlWait = some e →
      (RestoreZip version connString isLocal zipURLOrPath o).2 =
        some (.wrap ("restore: psql failed: " ++ e.Error) e)) ∧
    (o.dlStart = none → o.uzStart = none → o.psqlStart = none → o.psqlWait = none →
      o.uzWait = some e →
      (RestoreZip version connString isLocal zipURLOrPath o).2 =
        some (.wrap ("restore: unzip wait failed: " ++ e.Error) e)) ∧
    (o.dlStart = none → o.dlWait = some e →
      (RestoreZip version connString isLocal zipURLOrPath o).2 ≠ none ∧
      ((RestoreZip version connString isLocal zipURLOrPath o).2 =
          some (.wrap ("restore: download wait failed: " ++ e.Error) e) ↔
        (o.uzStart = none ∧ o.psqlStart = none ∧ o.psqlWait = none ∧ o.uzWait = none))) := by
  obtain ⟨a, b, c, d, f, g, h, i⟩ := o
  simp only at hdl huz
  subst hdl huz
  refine ⟨?_, ?_, ?_, ?_, ?_, ?_⟩
  · intro hc
    simp only at hc
    subst hc
    simp [RestoreZip, errorfW]
  · intro hc hd
    simp only at hc hd
    subst hc hd
    simp [RestoreZip, errorfW]
  · intro hc hd hf
    simp only at hc hd hf
    subst hc hd hf
    simp [RestoreZip, Cmd.Run, errorfW]
  · intro hc hd hf hg
    simp only at hc hd hf hg
    subst hc hd hf hg
    simp [RestoreZip, Cmd.Run, errorfW]
  · intro hc hd hf hg hh
    simp only at hc hd hf hg hh
    subst hc hd hf hg hh
    simp [RestoreZip, Cmd.Run, errorfW]
  · intro hc hi
    simp only at hc hi
    subst hc hi
    have hne := fun x y => msg_ne_download_wait x y
    cases d <;> cases f <;> cases g <;> cases h <;>
      simp [RestoreZip, Cmd.Run, errorfW, (hne _ _).1, (hne _ _).2.1, (hne _ _).2.2]

/-- Witness for C5, amended: a download that exits non-zero while every other step succeeds
is reported as the download-wait error; when unzip, left without an archive, exits non-zero
as well, the unzip-wait error is reported. -/
theorem RestoreZip_acquisition_error_witness :
    (RestoreZip PG15 "postgres://db" false "https://host/missing.zip"
      { dlWait := some (.leaf "exit status 8") }).2 =
      some (.wrap ("restore: download wait failed: " ++ (GoError.leaf "exit status 8").Error)
        (.leaf "exit status 8")) ∧
    (RestoreZip PG15 "postgres://db" false "https://host/missing.zip"
      { dlWait := some (.leaf "exit status 8"), uzWait := some (.leaf "exit status 9") }).2 =
      some (.wrap ("restore: unzip wait failed: " ++ (GoError.leaf "exit status 9").Error)
        (.leaf "exit status 9")) :=
  ⟨((RestoreZip_acquisition_error PG15 "postgres://db" false "https://host/missing.zip"
      { dlWait := some (.leaf "exit status 8") } (.leaf "exit status 8") rfl rfl).2.2.2.2.2
      rfl rfl).2.2 ⟨rfl, rfl, rfl, rfl⟩,
    (RestoreZip_acquisition_error PG15 "postgres://db" false "https://host/missing.zip"
      { dlWait := some (.leaf "exit status 8"), uzWait := some (.leaf "exit status 9") }
      (.leaf "exit status 9") rfl rfl).2.2.2.2.1 rfl rfl rfl rfl rfl⟩

/-- C6 at the failing input: psql exits non-zero while the download and unzip commands have
been started. `RestoreZip` returns the psql error after these calls only, so the download and
unzip commands were started successfully and never waited on. -/
theorem RestoreZip_psql_failure_skips_waits :
    RestoreZip PG15 "postgres://db" true "/backups/dump.zip"
      { psqlWait := some (.leaf "exit status 1") } =
      ([.start .download ⟨"cat", ["/backups/dump.zip"]⟩ none,
        .start .unzip ⟨"unzip", ["-p", "-", "dump.sql"]⟩ none,
        .start .psql ⟨"/usr/lib/postgresql/15/bin/psql", ["postgres://db"]⟩ none,
        .wait .psql (some (.leaf "exit status 1"))],
       some (.wrap "restore: psql failed: exit status 1" (.leaf "exit status 1"))) ∧
    started .download (RestoreZip PG15 "postgres://db" true "/backups/dump.zip"
      { psqlWait := some (.leaf "exit status 1") }).1 = true ∧
    waitCount .download (RestoreZip PG15 "postgres://db" true "/backups/dump.zip"
      { psqlWait := some (.leaf "exit status 1") }).1 = 0 ∧
    started .unzip (RestoreZip PG15 "postgres://db" true "/backups/dump.zip"
      { psqlWait := some (.leaf "exit status 1") }).1 = true ∧
    waitCount .unzip (RestoreZip PG15 "postgres://db" true "/backups/dump.zip"
      { psqlWait := some (.leaf "exit status 1") }).1 = 0 := by
  decide

/-- In a message of the form `a ++ label ++ b ++ text`, both `label` and `text` occur. -/
theorem contains_label_and_text (a label b text : String) :
    Contains (a ++ label ++ b ++ text) label ∧ Contains (a ++ label ++ b ++ text) text := by
  constructor
  · refine ⟨a.data, b.data ++ text.data, ?_⟩
    simp [String.data_append]
  · exact contains_append_right _ _

/-- The final state of the stream `Dump` returns, in terms of the outcome of the run. -/
theorem dump_reader_eq (version : PGVersion) (connString : String) (params : List DumpParams)
    (Run : Cmd → RunResult) :
    (Dump version connString params Run).reader =
      match (Run ⟨version.Value.PGDump, Dump.args connString params⟩).err with
      | some _ => .closedErr (.leaf ("error running pg_dump v" ++ version.Value.Version ++ ": "
          ++ (Run ⟨version.Value.PGDump, Dump.args connString params⟩).stderr))
      | none => .closedEOF := by
  unfold Dump
  simp only [Command]
  cases (Run ⟨version.Value.PGDump, Dump.args connString params⟩).err <;> rfl

/-- C8, as stated, fails: pg_dump succeeds, the consumer closes the read end and a write of
the copy then fails with `io.ErrClosedPipe`. The goroutine closes the write end with the
wrapping error, but the reads of the consumer end with the bare `io.ErrClosedPipe`, which
wraps nothing. -/
theorem DumpZip_reader_sees_bare_closed_pipe :
    (DumpZip PG15 "postgres://db" [] (fun _ => ⟨none, ""⟩) none (some ErrClosedPipe)
      true).events =
      [.zipCreate "dump.sql", .ioCopy,
        .closeWithError (.wrap "error writing to zip file: io: read/write on closed pipe"
          (.leaf "io: read/write on closed pipe")),
        .zipClose, .close] ∧
    (DumpZip PG15 "postgres://db" [] (fun _ => ⟨none, ""⟩) none (some ErrClosedPipe)
      true).reader = .closedErr (.leaf "io: read/write on closed pipe") ∧
    ¬ (∀ (version : PGVersion) (connString : String) (params : List DumpParams)
        (Run : Cmd → RunResult) (createErr readClose : Option GoError)
        (copyWriteFails : Bool) (e : GoError),
        Event.closeWithError (errorfW "error writing to zip file: " e) ∈
          (DumpZip version connString params Run createErr readClose copyWriteFails).events →
        ∃ w, (DumpZip version connString params Run createErr readClose
            copyWriteFails).reader = .closedErr w ∧ w.Unwrap = some e) := by
  refine ⟨by decide, by decide, ?_⟩
  intro h
  obtain ⟨w, hw, hu⟩ := h PG15 "postgres://db" [] (fun _ => ⟨none, ""⟩) none
    (some ErrClosedPipe) true ErrClosedPipe (by decide)
  have hr : (DumpZip PG15 "postgres://db" [] (fun _ => ⟨none, ""⟩) none (some ErrClosedPipe)
      true).reader = .closedErr ErrClosedPipe := by decide
  rw [hr] at hw
  injection hw with hw
  subst hw
  simp [ErrClosedPipe, GoError.Unwrap] at hu

/-- C8, amended: in `DumpZip`, whenever creating the dump.sql entry fails or the copy fails
(with the error `Dump` surfaces when pg_dump exits non-zero, or by a failing write), the
goroutine closes the write end with an error that wraps that cause, and the deferred
`zipWriter.Close()` and `writer.Close()` that run afterwards leave that close error in place.
When the consumer has not closed the read end, its stream ends with that wrapping error. A
write fails only after the consumer closed the read end, and whenever the consumer closed
the read end its reads end with the bare `io.ErrClosedPipe`, never with a normal
end-of-data. On the success path the zip writer is closed before the pipe writer, and the
stream of a consumer that has not closed the read end ends with a normal end-of-data. -/
theorem DumpZip_stream_closed_with_cause (version : PGVersion) (connString : String)
    (params : List DumpParams) (Run : Cmd → RunResult) (createErr readClose : Option GoError)
    (copyWriteFails : Bool) :
    (∀ e, createErr = some e →
      (DumpZip version connString params Run createErr readClose copyWriteFails).events =
        [.zipCreate "dump.sql",
          .closeWithError (.wrap ("error creating zip file: " ++ e.Error) e),
          .zipClose, .close] ∧
      (DumpZip version connString params Run createErr readClose copyWriteFails).writer =
        .closedErr (.wrap ("error creating zip file: " ++ e.Error) e) ∧
      (readClose = none →
        (DumpZip version connString params Run createErr readClose copyWriteFails).reader =
          .closedErr (.wrap ("error creating zip file: " ++ e.Error) e))) ∧
    (createErr = none → (copyWriteFails = false ∨ readClose = none) →
      (Run ⟨version.Value.PGDump, Dump.args connString params⟩).err ≠ none →
      (DumpZip version connString params Run createErr readClose copyWriteFails).events =
        [.zipCreate "dump.sql", .ioCopy,
          .closeWithError (errorfW "error writing to zip file: "
            (.leaf ("error running pg_dump v" ++ version.Value.Version ++ ": "
              ++ (Run ⟨version.Value.PGDump, Dump.args connString params⟩).stderr))),
          .zipClose, .close] ∧
      (DumpZip version connString params Run createErr readClose copyWriteFails).writer =
        .closedErr (errorfW "error writing to zip file: "
          (.leaf ("error running pg_dump v" ++ version.Value.Version ++ ": "
            ++ (Run ⟨version.Value.PGDump, Dump.args connString params⟩).stderr))) ∧
      (readClose = none →
        (DumpZip version connString params Run createErr readClose copyWriteFails).reader =
          .closedErr (errorfW "error writing to zip file: "
            (.leaf ("error running pg_dump v" ++ version.Value.Version ++ ": "
              ++ (Run ⟨version.Value.PGDump, Dump.args connString params⟩).stderr))))) ∧
    (∀ e, createErr = none → readClose = some e → copyWriteFails = true →
      (DumpZip version connString params Run createErr readClose copyWriteFails).events =
        [.zipCreate "dump.sql", .ioCopy,
          .closeWithError (.wrap ("error writing to zip file: " ++ e.Error) e),
          .zipClose, .close] ∧
      (DumpZip version connString params Run createErr readClose copyWriteFails).writer =
        .closedErr (.wrap ("error writing to zip file: " ++ e.Error) e)) ∧
    (∀ e, readClose = some e →
      (DumpZip version connString params Run createErr readClose copyWriteFails).reader =
        .closedErr ErrClosedPipe) ∧
    (createErr = none → (copyWriteFails = false ∨ readClose = none) →
      (Run ⟨version.Value.PGDump, Dump.args connString params⟩).err = none →
      (DumpZip version connString params Run createErr readClose copyWriteFails).events =
        [.zipCreate "dump.sql", .ioCopy, .zipClose, .close] ∧
      (DumpZip version connString params Run createErr readClose copyWriteFails).writer =
        .closedEOF ∧
      (readClose = none →
        (DumpZip version connString params Run createErr readClose copyWriteFails).reader =
          .closedEOF)) := by
  refine ⟨?_, ?_, ?_, ?_, ?_⟩
  · intro e hc
    subst hc
    refine ⟨?_, ?_, ?_⟩
    · simp [DumpZip, errorfW]
    · simp [DumpZip, errorfW, PipeState.after, PipeState.step, PipeState.CloseWithError,
        PipeState.Close]
    · intro hr
      subst hr
      simp [DumpZip, errorfW, readCloseError, PipeState.after, PipeState.step,
        PipeState.CloseWithError, PipeState.Close]
  · intro hc hnw hrun
    subst hc
    obtain ⟨e, he⟩ := Option.ne_none_iff_exists'.1 hrun
    have hr := dump_reader_eq version connString params Run
    rw [he] at hr
    have hwn : (if copyWriteFails = true then readClose else none) = none := by
      rcases hnw with h | h <;> simp [h]
    refine ⟨?_, ?_, ?_⟩
    · simp [DumpZip, hwn, hr, ioCopy, errorfW]
    · simp [DumpZip, hwn, hr, ioCopy, errorfW, PipeState.after, PipeState.step,
        PipeState.CloseWithError, PipeState.Close]
    · intro hrc
      subst hrc
      simp [DumpZip, hr, ioCopy, errorfW, readCloseError, PipeState.after, PipeState.step,
        PipeState.CloseWithError, PipeState.Close]
  · intro e hc hrc hcw
    subst hc hrc hcw
    refine ⟨?_, ?_⟩
    · simp [DumpZip, ioCopy, errorfW]
    · simp [DumpZip, ioCopy, errorfW, PipeState.after, PipeState.step,
        PipeState.CloseWithError, PipeState.Close]
  · intro e hrc
    subst hrc
    simp [DumpZip, readCloseError]
  · intro hc hnw hrun
    subst hc
    have hr := dump_reader_eq version connString params Run
    rw [hrun] at hr
    have hwn : (if copyWriteFails = true then readClose else none) = none := by
      rcases hnw with h | h <;> simp [h]
    refine ⟨?_, ?_, ?_⟩
    · simp [DumpZip, hwn, hr, ioCopy]
    · simp [DumpZip, hwn, hr, ioCopy, PipeState.after, PipeState.step,
        PipeState.CloseWithError, PipeState.Close]
    · intro hrc
      subst hrc
      simp [DumpZip, hr, ioCopy, readCloseError, PipeState.after, PipeState.step,
        PipeState.CloseWithError, PipeState.Close]

/-- Witness for C8, amended: pg_dump 15 exits with status 1 after writing a diagnostic, and
the consumer reads the archive stream to its end without closing it. -/
theorem DumpZip_stream_closed_with_cause_witness :
    (DumpZip PG15 "postgres://db" [] (fun _ => ⟨some (.leaf "exit status 1"),
      "pg_dump: error: connection failed"⟩) none none false).reader =
      .closedErr (errorfW "error writing to zip file: "
        (.leaf ("error running pg_dump v" ++ "15" ++ ": "
          ++ "pg_dump: error: connection failed"))) :=
  ((DumpZip_stream_closed_with_cause PG15 "postgres://db" []
    (fun _ => ⟨some (.leaf "exit status 1"), "pg_dump: error: connection failed"⟩)
    none none false).2.1 rfl (Or.inl rfl) (by simp)).2.2 rfl

/-- C9: `Test` invokes the psql path of the version with exactly the arguments
`[connString, "-c", "SELECT 1;"]` (its result depends on the subprocess outcomes through
that command only); it returns `nil` if and only if the run reports no error, and otherwise
returns the error "error running psql test v<Version>: <output>", whose message contains
the version label and the whole combined output. -/
theorem Test_reports_run_outcome (version : PGVersion) (connString : String)
    (CombinedOutput : Cmd → String × Option GoError) :
    (∀ other : Cmd → String × Option GoError,
      other ⟨version.Value.PSQL, [connString, "-c", "SELECT 1;"]⟩ =
        CombinedOutput ⟨version.Value.PSQL, [connString, "-c", "SELECT 1;"]⟩ →
      Test version connString other = Test version connString CombinedOutput) ∧
    (Test version connString CombinedOutput = none ↔
      (CombinedOutput ⟨version.Value.PSQL, [connString, "-c", "SELECT 1;"]⟩).2 = none) ∧
    ((CombinedOutput ⟨version.Value.PSQL, [connString, "-c", "SELECT 1;"]⟩).2 ≠ none →
      Test version connString CombinedOutput =
        some (.leaf ("error running psql test v" ++ version.Value.Version ++ ": " ++
          (CombinedOutput ⟨version.Value.PSQL, [connString, "-c", "SELECT 1;"]⟩).1)) ∧
      Contains ("error running psql test v" ++ version.Value.Version ++ ": " ++
          (CombinedOutput ⟨version.Value.PSQL, [connString, "-c", "SELECT 1;"]⟩).1)
        version.Value.Version ∧
      Contains ("error running psql test v" ++ version.Value.Version ++ ": " ++
          (CombinedOutput ⟨version.Value.PSQL, [connString, "-c", "SELECT 1;"]⟩).1)
        (CombinedOutput ⟨version.Value.PSQL, [connString, "-c", "SELECT 1;"]⟩).1) := by
  refine ⟨?_, ?_, ?_⟩
  · intro other h
    simp only [Test, Command, h]
  · simp only [Test, Command]
    cases (CombinedOutput ⟨version.Value.PSQL, [connString, "-c", "SELECT 1;"]⟩).2 <;> simp
  · intro h
    obtain ⟨e, he⟩ := Option.ne_none_iff_exists'.1 h
    refine ⟨?_, (contains_label_and_text _ _ _ _).1, (contains_label_and_text _ _ _ _).2⟩
    simp only [Test, Command, he]

/-- Witness for C9: psql 14 exits with status 2 after printing a connection error. -/
theorem Test_reports_run_outcome_witness :
    Test PG14 "postgres://db" (fun _ => ("psql: error: connection refused",
      some (.leaf "exit status 2"))) =
      some (.leaf ("error running psql test v" ++ "14" ++ ": " ++
        "psql: error: connection refused")) :=
  ((Test_reports_run_outcome PG14 "postgres://db" (fun _ =>
    ("psql: error: connection refused", some (.leaf "exit status 2")))).2.2 (by simp)).1

end Postgres
